import Mathlib

set_option maxRecDepth 100000

/-!
# Verification of the matching-api real-time chat fan-out core

Shallow embedding of `src/internal/handlers/chat/websocket.go` (the Hub /
Connection / broadcast logic) together with the success path of
`Handler.SendMessage` (the caller of `BroadcastMessage`).

Modelling conventions:

* A Go `*Connection` is identified by a `Nat` session id (pointer identity);
  the data behind the pointer lives in a store `Nat → Option SessionData`.
  A `connect` event only creates a session at a fresh id, because a Go
  allocation never reuses a live pointer.
* The Go map `connections map[string][]*Connection` is modelled as the total
  function `String → List Nat` with default `[]`.  `delete` on the map is
  setting the entry to `[]`; every operation in the file treats a missing key
  and an empty slice identically (`range` over nothing / `ok` guarding a
  loop), so the two representations are observationally equal.
* The buffered channel `Send chan []byte` (capacity 256, `websocket.go:165`)
  is a `List` of frames plus a `queueClosed` flag.  `json.Marshal` of a
  `WebSocketMessage` never fails, so a marshalled `[]byte` is modelled as the
  structured message itself, and an inbound raw client frame as
  `Option WebSocketMessage` (`none` = `json.Unmarshal` error).
* Go channel semantics that matter here: `close` of a closed channel panics;
  a send on a closed channel panics, also when it is a case of a `select`
  with a `default` branch (the send counts as ready and panics when chosen).
  An unrecovered panic kills the whole process, so the model state carries a
  `panicked` flag and every event is a no-op once it is set.
* The database lookup in `broadcastToChat` (`websocket.go:107-119`) is the
  participant resolver: a function `String → Option (String × String)`,
  `none` covering both `database.DB == nil` and a query error.
* Frames written to the socket by the writer loop are collected in `written`
  (the socket's outbound wire, in write order); `socketClosed` records
  `Conn.Close()`.
-/

namespace MatchingApi

/-- `WebSocketMessage` (`websocket.go:48-53`).  The `Message interface{}`
payload is opaque to the hub and modelled as a `String`. -/
structure WebSocketMessage where
  type : String
  chatID : String
  message : String
  userID : String
deriving DecidableEq, Repr

/-- The per-connection send-channel capacity, `make(chan []byte, 256)`
(`websocket.go:165`). -/
def sendQueueCapacity : Nat := 256

/-- The state behind one `*Connection` (`websocket.go:25-29`) together with
the observable effects of its two goroutines: `written` is the sequence of
frames the writer loop has written to the socket, `socketClosed` records
`Conn.Close()`. -/
structure SessionData where
  userID : String
  queue : List WebSocketMessage
  queueClosed : Bool
  socketClosed : Bool
  written : List WebSocketMessage
deriving DecidableEq, Repr

/-- The whole process: the hub's `connections` map, the store behind all
connection pointers, and whether some goroutine has panicked (which kills
the process). -/
structure HubState where
  registry : String → List Nat
  store : Nat → Option SessionData
  panicked : Bool

/-- Participant resolver: the DB query of `broadcastToChat`
(`websocket.go:107-119`); `none` models `database.DB == nil` or a row error. -/
def Resolver : Type := String → Option (String × String)

/-- Empty process state (fresh hub, `websocket.go:40-45`). -/
def initState : HubState :=
  { registry := fun _ => [], store := fun _ => none, panicked := false }

/-- Update one session in the store. -/
def setSession (st : HubState) (id : Nat) (s : SessionData) : HubState :=
  { st with store := fun j => if j = id then some s else st.store j }

/-- Update one user's connection list in the registry. -/
def setRegistry (st : HubState) (uid : String) (l : List Nat) : HubState :=
  { st with registry := fun u => if u = uid then l else st.registry u }

/-- A goroutine panics: the process is dead. -/
def setPanicked (st : HubState) : HubState := { st with panicked := true }

/-- `close(c.Send)`: closing an already-closed channel panics. -/
def closeQueue (st : HubState) (id : Nat) : HubState :=
  match st.store id with
  | none => st
  | some s =>
      if s.queueClosed then setPanicked st
      else setSession st id { s with queueClosed := true }

/-- The `register` case of `Hub.run` (`websocket.go:63-67`):
`h.connections[conn.UserID] = append(h.connections[conn.UserID], conn)`. -/
def registerConn (st : HubState) (id : Nat) : HubState :=
  match st.store id with
  | none => st
  | some s => setRegistry st s.userID (st.registry s.userID ++ [id])

/-- Remove the first occurrence of `id` (the `for i, c := range … if c == conn`
loop with `break`, `websocket.go:72-78`); the `Bool` reports whether it was
found. -/
def removeFirst : List Nat → Nat → List Nat × Bool
  | [], _ => ([], false)
  | x :: xs, id =>
      if x = id then (xs, true)
      else
        let r := removeFirst xs id
        (x :: r.1, r.2)

/-- The `unregister` case of `Hub.run` (`websocket.go:69-84`): remove the
first matching pointer from the user's slice and `close(c.Send)`; the
delete-when-empty of the map key is invisible in the total-function
representation. -/
def unregisterConn (st : HubState) (id : Nat) : HubState :=
  match st.store id with
  | none => st
  | some s =>
      let r := removeFirst (st.registry s.userID) id
      if r.2 then closeQueue (setRegistry st s.userID r.1) id
      else st

/-- One iteration of the fan-out loop in `sendToUser` (`websocket.go:136-142`):
`select { case conn.Send <- message: default: close(conn.Send) }`.
A send on a closed channel is ready and panics even with the `default`
branch present; a full (but open) buffered channel takes `default`. -/
def trySend (st : HubState) (id : Nat) (msg : WebSocketMessage) : HubState :=
  match st.store id with
  | none => st
  | some s =>
      if s.queueClosed then setPanicked st
      else if s.queue.length < sendQueueCapacity then
        setSession st id { s with queue := s.queue ++ [msg] }
      else closeQueue st id

/-- `Hub.sendToUser` (`websocket.go:127-143`): snapshot the user's
connection list and attempt a non-blocking enqueue on each; a panic aborts
the loop. -/
def sendToUser (st : HubState) (uid : String) (msg : WebSocketMessage) : HubState :=
  (st.registry uid).foldl
    (fun acc id => if acc.panicked then acc else trySend acc id msg) st

/-- `Hub.broadcastToChat` (`websocket.go:101-124`): resolve the chat's two
participants; on any resolution failure return immediately (the broadcast is
dropped); otherwise `sendToUser` to both. -/
def broadcastToChat (r : Resolver) (st : HubState) (chatID : String)
    (msg : WebSocketMessage) : HubState :=
  match r chatID with
  | none => st
  | some (u1, u2) =>
      let st1 := sendToUser st u1 msg
      if st1.panicked then st1 else sendToUser st1 u2 msg

/-- The `broadcast` case of `Hub.run` (`websocket.go:86-95`): decode the
frame and fan out only when it carries a chat id. -/
def handleBroadcast (r : Resolver) (st : HubState) (msg : WebSocketMessage) :
    HubState :=
  if msg.chatID ≠ "" then broadcastToChat r st msg.chatID msg else st

/-- The pong reply built in the `"ping"` case of `readPump`
(`websocket.go:211`). -/
def pongFrame : WebSocketMessage :=
  { type := "pong", chatID := "", message := "", userID := "" }

/-- The `"typing"` case of `readPump` stamps the frame with the session's
own authenticated user id (`websocket.go:205`). -/
def stampTyping (sessionUID : String) (m : WebSocketMessage) : WebSocketMessage :=
  { m with userID := sessionUID }

/-- The frame built by `BroadcastMessage` (`websocket.go:237-241`). -/
def newMessageFrame (chatID payload : String) : WebSocketMessage :=
  { type := "new_message", chatID := chatID, message := payload, userID := "" }

/-- The `"ping"` reply `c.Send <- data` (`websocket.go:213`): an unguarded
blocking send on the session's own channel — panics if the channel is
closed; if the buffer is full the send blocks (the event does not complete,
modelled as no state change yet). -/
def pingReply (st : HubState) (id : Nat) : HubState :=
  match st.store id with
  | none => st
  | some s =>
      if s.queueClosed then setPanicked st
      else if s.queue.length < sendQueueCapacity then
        setSession st id { s with queue := s.queue ++ [pongFrame] }
      else st

/-- Processing of one inbound client frame by `readPump`
(`websocket.go:194-215`): `none` (unmarshal error) and unrecognized types
are discarded with `continue`; `"typing"` is stamped with the session's user
id and submitted to the hub's broadcast channel (whose processing is
`handleBroadcast`); `"ping"` gets a direct pong on the session's own queue. -/
def readPumpStep (r : Resolver) (st : HubState) (id : Nat)
    (raw : Option WebSocketMessage) : HubState :=
  match st.store id with
  | none => st
  | some s =>
      match raw with
      | none => st
      | some m =>
          if m.type = "typing" then handleBroadcast r st (stampTyping s.userID m)
          else if m.type = "ping" then pingReply st id
          else st

/-- `BroadcastMessage` (`websocket.go:236-246`): wrap the stored message in a
`new_message` frame and submit it to the hub's broadcast channel. -/
def BroadcastMessage (r : Resolver) (st : HubState) (chatID payload : String) :
    HubState :=
  handleBroadcast r st (newMessageFrame chatID payload)

/-- The success path of `Handler.SendMessage` (`part_007:188-231`): after the
message row is inserted, it broadcasts to the hub and answers 201 Created —
the HTTP status does not depend on the broadcast's outcome. -/
def sendMessagePersisted (r : Resolver) (st : HubState) (chatID payload : String) :
    HubState × Nat :=
  (BroadcastMessage r st chatID payload, 201)

/-- One successful write of the writer loop (`websocket.go:227-228`): take
the next frame from the channel and write it to the socket. -/
def writerStep (st : HubState) (id : Nat) : HubState :=
  match st.store id with
  | none => st
  | some s =>
      match s.queue with
      | [] => st
      | m :: rest =>
          setSession st id { s with queue := rest, written := s.written ++ [m] }

/-- A failed write (`websocket.go:228-231`): the frame was taken from the
channel, the write errored, the loop returns and the deferred `Conn.Close()`
runs. -/
def writerWriteError (st : HubState) (id : Nat) : HubState :=
  match st.store id with
  | none => st
  | some s =>
      match s.queue with
      | [] => st
      | _ :: rest => setSession st id { s with queue := rest, socketClosed := true }

/-- The writer loop's `range` ends (`websocket.go:227`): only possible once
the channel is closed and drained; the deferred `Conn.Close()` runs. -/
def writerExit (st : HubState) (id : Nat) : HubState :=
  match st.store id with
  | none => st
  | some s =>
      if s.queueClosed ∧ s.queue = [] then
        setSession st id { s with socketClosed := true }
      else st

/-- `readPump`'s deferred cleanup on a read error (`websocket.go:178-183`):
`hub.unregister <- c` (processed by `Hub.run`) then `c.Conn.Close()`.  If the
hub goroutine panics while processing the unregister, the process dies. -/
def readerError (st : HubState) (id : Nat) : HubState :=
  let st1 := unregisterConn st id
  if st1.panicked then st1
  else
    match st1.store id with
    | none => st1
    | some s => setSession st1 id { s with socketClosed := true }

/-- `HandleWebSocket` (`websocket.go:146-174`): allocate a fresh
`Connection` with an empty capacity-256 channel and register it.  A live
pointer is never reallocated, so the event requires an unused id. -/
def connect (st : HubState) (id : Nat) (uid : String) : HubState :=
  match st.store id with
  | some _ => st
  | none =>
      registerConn
        (setSession st id
          { userID := uid, queue := [], queueClosed := false,
            socketClosed := false, written := [] }) id

/-- The events the system's goroutines can perform, one small step each. -/
inductive Event where
  | connect (id : Nat) (uid : String)
  | register (id : Nat)
  | unregister (id : Nat)
  | send (uid : String) (msg : WebSocketMessage)
  | broadcast (msg : WebSocketMessage)
  | inbound (id : Nat) (raw : Option WebSocketMessage)
  | writerStep (id : Nat)
  | writerWriteError (id : Nat)
  | writerExit (id : Nat)
  | readerError (id : Nat)
deriving Repr

/-- Apply one event; a dead (panicked) process does nothing any more. -/
def applyEvent (r : Resolver) (st : HubState) : Event → HubState
  | .connect id uid => if st.panicked then st else connect st id uid
  | .register id => if st.panicked then st else registerConn st id
  | .unregister id => if st.panicked then st else unregisterConn st id
  | .send uid msg => if st.panicked then st else sendToUser st uid msg
  | .broadcast msg => if st.panicked then st else handleBroadcast r st msg
  | .inbound id raw => if st.panicked then st else readPumpStep r st id raw
  | .writerStep id => if st.panicked then st else writerStep st id
  | .writerWriteError id => if st.panicked then st else writerWriteError st id
  | .writerExit id => if st.panicked then st else writerExit st id
  | .readerError id => if st.panicked then st else readerError st id

/-- Apply a sequence of events. -/
def applyEvents (r : Resolver) (st : HubState) (es : List Event) : HubState :=
  es.foldl (applyEvent r) st

/-- The state reached from the fresh hub by a sequence of events. -/
def run (r : Resolver) (es : List Event) : HubState :=
  applyEvents r initState es

/-! ## Concrete fixtures used by the theorems below -/

/-- A two-participant resolver: chat `"C"` resolves to users `"A"` and `"B"`,
every other chat id fails to resolve (no row / inactive match). -/
def resolverC : Resolver := fun c => if c = "C" then some ("A", "B") else none

/-- A sample broadcast frame for chat `"C"`. -/
def msgA : WebSocketMessage :=
  { type := "new_message", chatID := "C", message := "hi", userID := "" }

/-- Connect session 0 for user `"A"`, fill its 256-slot queue with
`sendToUser` deliveries, then deliver one more frame (the overflow). -/
def overflowTrace : List Event :=
  Event.connect 0 "A" ::
    (List.replicate sendQueueCapacity (Event.send "A" msgA) ++ [Event.send "A" msgA])

/-! ## C1 -/

/-- C1: claimed — delivering to a Session whose queue is full unregisters the
Session and closes its socket, and never enqueues beyond capacity.  What the
code does at this exact input: the 257th delivery closes the queue and
enqueues nothing beyond the 256 frames (that half of the claim holds), but
the Session is still registered under `"A"` afterwards — `sendToUser` never
removes it from the registry — and when the reader loop later triggers the
unregister, the hub closes the already-closed queue, a runtime panic, so the
claimed clean unregister-and-close never happens. -/
theorem C1_overflow_leaves_session_registered :
    ((run resolverC overflowTrace).store 0).map
        (fun s => (s.queueClosed, s.queue.length)) = some (true, 256)
    ∧ (run resolverC overflowTrace).registry "A" = [0]
    ∧ (applyEvent resolverC (run resolverC overflowTrace)
        (Event.readerError 0)).panicked = true := by
  refine ⟨?_, ?_, ?_⟩ <;> decide

/-! ## C2 -/

/-- C2: claimed — the outbound queue is closed exactly once across every
interleaving, and a second `Unregister` is a no-op.  The second half holds in
isolation (two `unregister` events: the second finds the Session gone and
changes nothing, no panic), but the first half fails: after `sendToUser`
closed the queue on overflow, processing the Session's `unregister` closes
the same queue a second time — in Go a `close` of a closed channel, a
runtime panic. -/
theorem C2_double_close_panics :
    (applyEvent resolverC (run resolverC overflowTrace) (Event.unregister 0)).panicked
        = true
    ∧ (run resolverC [Event.connect 0 "A", Event.unregister 0,
        Event.unregister 0]).panicked = false
    ∧ (run resolverC [Event.connect 0 "A", Event.unregister 0,
          Event.unregister 0]).registry "A"
        = (run resolverC [Event.connect 0 "A", Event.unregister 0]).registry "A" := by
  refine ⟨?_, ?_, ?_⟩ <;> decide

/-! ## C3 -/

/-- C3: counterexample to the claim as stated.  Session 0 is registered for
user `"A"`; processing a second `register` for the same handle appends it
again: the Registry then holds two entries for the same handle, where the
claim requires exactly one. -/
theorem C3_duplicate_register_counterexample :
    (run resolverC [Event.connect 0 "A", Event.register 0]).registry "A" = [0, 0] := by
  decide

/-- C3 amended: `Register` is not idempotent — registering an
already-registered Session handle unconditionally appends a second entry for
it under its user ID, so the handle's entry count grows by one. -/
theorem C3_register_appends (r : Resolver) (st : HubState) (id : Nat)
    (s : SessionData) (hs : st.store id = some s) (hp : st.panicked = false) :
    ((applyEvent r st (Event.register id)).registry s.userID).count id
      = (st.registry s.userID).count id + 1 := by
  simp [applyEvent, hp, registerConn, hs, setRegistry, List.count_append]

/-- C3 witness: instantiates `C3_register_appends` at the one-session state
reached by connecting session 0 for user `"A"`. -/
theorem C3_register_appends_witness :
    ((applyEvent resolverC (run resolverC [Event.connect 0 "A"])
        (Event.register 0)).registry "A").count 0
      = ((run resolverC [Event.connect 0 "A"]).registry "A").count 0 + 1 :=
  C3_register_appends resolverC (run resolverC [Event.connect 0 "A"]) 0
    ⟨"A", [], false, false, []⟩ (by decide) (by decide)

/-! ## C4: the registry/identity invariant -/

/-- Every handle present in the registry is backed by a stored session whose
authenticated identity is exactly the key it is filed under. -/
def RegistryInv (st : HubState) : Prop :=
  ∀ uid id, id ∈ st.registry uid → ∃ s, st.store id = some s ∧ s.userID = uid

theorem registryInv_init : RegistryInv initState := by
  intro uid id h
  simp [initState] at h

theorem registryInv_setPanicked {st : HubState} (h : RegistryInv st) :
    RegistryInv (setPanicked st) := h

theorem registryInv_setSession {st : HubState} {id : Nat} {s0 s : SessionData}
    (h : RegistryInv st) (hs : st.store id = some s0) (hu : s.userID = s0.userID) :
    RegistryInv (setSession st id s) := by
  intro uid j hj
  obtain ⟨t, ht, htu⟩ := h uid j hj
  by_cases hij : j = id
  · subst hij
    rw [ht] at hs
    refine ⟨s, by simp [setSession], ?_⟩
    rw [hu]
    exact (Option.some_inj.mp hs) ▸ htu
  · exact ⟨t, by simpa [setSession, hij] using ht, htu⟩

theorem registryInv_closeQueue {st : HubState} {id : Nat} (h : RegistryInv st) :
    RegistryInv (closeQueue st id) := by
  cases hst : st.store id with
  | none => simpa [closeQueue, hst] using h
  | some s =>
      cases hc : s.queueClosed with
      | true => simpa [closeQueue, hst, hc] using registryInv_setPanicked h
      | false =>
          simp only [closeQueue, hst, hc, Bool.false_eq_true, if_false]
          exact registryInv_setSession h hst rfl

theorem registryInv_trySend {st : HubState} {id : Nat} {msg : WebSocketMessage}
    (h : RegistryInv st) : RegistryInv (trySend st id msg) := by
  cases hst : st.store id with
  | none => simpa [trySend, hst] using h
  | some s =>
      cases hc : s.queueClosed with
      | true => simpa [trySend, hst, hc] using registryInv_setPanicked h
      | false =>
          by_cases hl : s.queue.length < sendQueueCapacity
          · simp only [trySend, hst, hc, Bool.false_eq_true, if_false, if_pos hl]
            exact registryInv_setSession h hst rfl
          · simp only [trySend, hst, hc, Bool.false_eq_true, if_false, if_neg hl]
            exact registryInv_closeQueue h

theorem registryInv_sendFold {msg : WebSocketMessage} (l : List Nat) :
    ∀ {st : HubState}, RegistryInv st →
      RegistryInv (l.foldl
        (fun acc id => if acc.panicked then acc else trySend acc id msg) st) := by
  induction l with
  | nil => intro st h; exact h
  | cons x xs ih =>
      intro st h
      simp only [List.foldl]
      apply ih
      by_cases hp : st.panicked
      · simpa [hp] using h
      · simpa [hp] using registryInv_trySend h

theorem registryInv_sendToUser {st : HubState} {uid : String}
    {msg : WebSocketMessage} (h : RegistryInv st) :
    RegistryInv (sendToUser st uid msg) :=
  registryInv_sendFold (st.registry uid) h

theorem registryInv_broadcastToChat {st : HubState} {r : Resolver}
    {chat : String} {msg : WebSocketMessage} (h : RegistryInv st) :
    RegistryInv (broadcastToChat r st chat msg) := by
  cases hr : r chat with
  | none => simpa [broadcastToChat, hr] using h
  | some p =>
      cases p with
      | mk u1 u2 =>
          by_cases hp : (sendToUser st u1 msg).panicked
          · simpa [broadcastToChat, hr, hp] using registryInv_sendToUser h
          · simpa [broadcastToChat, hr, hp] using
              registryInv_sendToUser (registryInv_sendToUser h)

theorem registryInv_handleBroadcast {st : HubState} {r : Resolver}
    {msg : WebSocketMessage} (h : RegistryInv st) :
    RegistryInv (handleBroadcast r st msg) := by
  by_cases hc : msg.chatID = ""
  · simpa [handleBroadcast, hc] using h
  · simpa [handleBroadcast, hc] using registryInv_broadcastToChat h

theorem registryInv_registerConn {st : HubState} {id : Nat} (h : RegistryInv st) :
    RegistryInv (registerConn st id) := by
  cases hst : st.store id with
  | none => simpa [registerConn, hst] using h
  | some s =>
      simp only [registerConn, hst]
      intro uid j hj
      simp only [setRegistry] at hj ⊢
      by_cases hu : uid = s.userID
      · rw [if_pos hu] at hj
        rcases List.mem_append.mp hj with hin | hone
        · exact h uid j (by rw [hu]; exact hin)
        · refine ⟨s, ?_, hu.symm⟩
          rw [List.mem_singleton.mp hone]
          exact hst
      · rw [if_neg hu] at hj
        exact h uid j hj

theorem mem_removeFirst {l : List Nat} {a id : Nat}
    (h : a ∈ (removeFirst l id).1) : a ∈ l := by
  induction l with
  | nil => simp [removeFirst] at h
  | cons x xs ih =>
      simp only [removeFirst] at h
      by_cases hx : x = id
      · rw [if_pos hx] at h
        exact List.mem_cons_of_mem x h
      · rw [if_neg hx] at h
        rcases List.mem_cons.mp h with h1 | h2
        · exact h1 ▸ List.mem_cons_self x xs
        · exact List.mem_cons_of_mem x (ih h2)

theorem registryInv_unregisterConn {st : HubState} {id : Nat}
    (h : RegistryInv st) : RegistryInv (unregisterConn st id) := by
  cases hst : st.store id with
  | none => simpa [unregisterConn, hst] using h
  | some s =>
      by_cases hf : (removeFirst (st.registry s.userID) id).2 = true
      · simp only [unregisterConn, hst, hf, if_true]
        apply registryInv_closeQueue
        intro uid j hj
        simp only [setRegistry] at hj ⊢
        by_cases hu : uid = s.userID
        · rw [if_pos hu] at hj
          exact h uid j (by rw [hu]; exact mem_removeFirst hj)
        · rw [if_neg hu] at hj
          exact h uid j hj
      · simpa [unregisterConn, hst, hf] using h

theorem registryInv_pingReply {st : HubState} {id : Nat} (h : RegistryInv st) :
    RegistryInv (pingReply st id) := by
  cases hst : st.store id with
  | none => simpa [pingReply, hst] using h
  | some s =>
      cases hc : s.queueClosed with
      | true => simpa [pingReply, hst, hc] using registryInv_setPanicked h
      | false =>
          by_cases hl : s.queue.length < sendQueueCapacity
          · simp only [pingReply, hst, hc, Bool.false_eq_true, if_false, if_pos hl]
            exact registryInv_setSession h hst rfl
          · simpa [pingReply, hst, hc, hl] using h

theorem registryInv_readPumpStep {st : HubState} {r : Resolver} {id : Nat}
    {raw : Option WebSocketMessage} (h : RegistryInv st) :
    RegistryInv (readPumpStep r st id raw) := by
  cases hst : st.store id with
  | none => simpa [readPumpStep, hst] using h
  | some s =>
      cases raw with
      | none => simpa [readPumpStep, hst] using h
      | some m =>
          by_cases ht : m.type = "typing"
          · simpa [readPumpStep, hst, ht] using registryInv_handleBroadcast h
          · by_cases hg : m.type = "ping"
            · simpa [readPumpStep, hst, ht, hg] using registryInv_pingReply h
            · simpa [readPumpStep, hst, ht, hg] using h

theorem registryInv_writerStep {st : HubState} {id : Nat} (h : RegistryInv st) :
    RegistryInv (writerStep st id) := by
  cases hst : st.store id with
  | none => simpa [writerStep, hst] using h
  | some s =>
      cases hq : s.queue with
      | nil => simpa [writerStep, hst, hq] using h
      | cons m rest =>
          simp only [writerStep, hst, hq]
          exact registryInv_setSession h hst rfl

theorem registryInv_writerWriteError {st : HubState} {id : Nat}
    (h : RegistryInv st) : RegistryInv (writerWriteError st id) := by
  cases hst : st.store id with
  | none => simpa [writerWriteError, hst] using h
  | some s =>
      cases hq : s.queue with
      | nil => simpa [writerWriteError, hst, hq] using h
      | cons m rest =>
          simp only [writerWriteError, hst, hq]
          exact registryInv_setSession h hst rfl

theorem registryInv_writerExit {st : HubState} {id : Nat} (h : RegistryInv st) :
    RegistryInv (writerExit st id) := by
  cases hst : st.store id with
  | none => simpa [writerExit, hst] using h
  | some s =>
      by_cases hc : s.queueClosed = true ∧ s.queue = []
      · simp only [writerExit, hst, if_pos hc]
        exact registryInv_setSession h hst rfl
      · simpa [writerExit, hst, hc] using h

theorem registryInv_readerError {st : HubState} {id : Nat} (h : RegistryInv st) :
    RegistryInv (readerError st id) := by
  have h1 : RegistryInv (unregisterConn st id) := registryInv_unregisterConn h
  by_cases hp : (unregisterConn st id).panicked = true
  · simpa [readerError, hp] using h1
  · cases hst : (unregisterConn st id).store id with
    | none => simpa [readerError, hp, hst] using h1
    | some s =>
        simp only [readerError, hp, hst, Bool.false_eq_true, if_false]
        exact registryInv_setSession h1 hst rfl

theorem registryInv_connect {st : HubState} {id : Nat} {uid : String}
    (h : RegistryInv st) : RegistryInv (connect st id uid) := by
  cases hst : st.store id with
  | some s => simpa [connect, hst] using h
  | none =>
      simp only [connect, hst]
      apply registryInv_registerConn
      intro u j hj
      obtain ⟨t, ht, htu⟩ := h u j hj
      by_cases hij : j = id
      · subst hij
        rw [hst] at ht
        cases ht
      · exact ⟨t, by simpa [setSession, hij] using ht, htu⟩

theorem registryInv_applyEvent {st : HubState} {r : Resolver} (e : Event)
    (h : RegistryInv st) : RegistryInv (applyEvent r st e) := by
  by_cases hp : st.panicked = true
  · cases e <;> simpa [applyEvent, hp] using h
  · cases e with
    | connect id uid => simpa [applyEvent, hp] using registryInv_connect h
    | register id => simpa [applyEvent, hp] using registryInv_registerConn h
    | unregister id => simpa [applyEvent, hp] using registryInv_unregisterConn h
    | send uid msg => simpa [applyEvent, hp] using registryInv_sendToUser h
    | broadcast msg => simpa [applyEvent, hp] using registryInv_handleBroadcast h
    | inbound id raw => simpa [applyEvent, hp] using registryInv_readPumpStep h
    | writerStep id => simpa [applyEvent, hp] using registryInv_writerStep h
    | writerWriteError id =>
        simpa [applyEvent, hp] using registryInv_writerWriteError h
    | writerExit id => simpa [applyEvent, hp] using registryInv_writerExit h
    | readerError id => simpa [applyEvent, hp] using registryInv_readerError h

theorem registryInv_run (r : Resolver) (es : List Event) :
    RegistryInv (run r es) := by
  suffices hgen : ∀ st : HubState, RegistryInv st →
      RegistryInv (applyEvents r st es) from hgen initState registryInv_init
  induction es with
  | nil => intro st h; exact h
  | cons e es ih =>
      intro st h
      exact ih (applyEvent r st e) (registryInv_applyEvent e h)

/-- C4: counterexample to the claim as stated.  The reachable trace
connect–send–writer-write-error leaves session 0 with its socket closed
(`writePump`'s deferred `Conn.Close()` ran) while it is still registered
under `"A"`: the Registry does hold a Session whose socket has been closed,
until the reader loop later notices and unregisters it. -/
theorem C4_closed_socket_still_registered :
    ((run resolverC [Event.connect 0 "A", Event.send "A" msgA,
        Event.writerWriteError 0]).store 0).map SessionData.socketClosed = some true
    ∧ (run resolverC [Event.connect 0 "A", Event.send "A" msgA,
        Event.writerWriteError 0]).registry "A" = [0] := by
  refine ⟨?_, ?_⟩ <;> decide

/-- C4 amended: in every state reachable by the step relation, every Session
handle in the Registry is filed under exactly one user ID — the authenticated
identity of the stored session — but the Registry can transiently hold a
Session whose socket has already been closed (between a writer-loop failure
or queue overflow and the reader loop's Unregister). -/
theorem C4_registry_binds_one_identity (r : Resolver) (es : List Event)
    (uid : String) (id : Nat) (h : id ∈ (run r es).registry uid) :
    (∃ s, (run r es).store id = some s ∧ s.userID = uid)
    ∧ ∀ uid2, id ∈ (run r es).registry uid2 → uid2 = uid := by
  refine ⟨registryInv_run r es uid id h, ?_⟩
  intro uid2 h2
  obtain ⟨s, hs, hu⟩ := registryInv_run r es uid id h
  obtain ⟨t, ht, hu2⟩ := registryInv_run r es uid2 id h2
  rw [hs] at ht
  rw [← hu, ← hu2, (Option.some_inj.mp ht)]

/-- C4 witness: instantiates `C4_registry_binds_one_identity` on the
one-connection trace. -/
theorem C4_registry_binds_one_identity_witness :
    (∃ s, (run resolverC [Event.connect 0 "A"]).store 0 = some s
        ∧ s.userID = "A")
    ∧ ∀ uid2, 0 ∈ (run resolverC [Event.connect 0 "A"]).registry uid2 →
        uid2 = "A" :=
  C4_registry_binds_one_identity resolverC [Event.connect 0 "A"] "A" 0 (by decide)

/-! ## C5: fan-out machinery -/

theorem setSession_store_self (st : HubState) (id : Nat) (s : SessionData) :
    (setSession st id s).store id = some s := by
  simp [setSession]

theorem setSession_store_other {id j : Nat} (st : HubState) (s : SessionData)
    (h : j ≠ id) : (setSession st id s).store j = st.store j := by
  simp [setSession, h]

theorem setSession_registry (st : HubState) (id : Nat) (s : SessionData) :
    (setSession st id s).registry = st.registry := rfl

theorem setSession_panicked (st : HubState) (id : Nat) (s : SessionData) :
    (setSession st id s).panicked = st.panicked := rfl

/-- A session that can absorb one more non-blocking enqueue: present, queue
open, strictly below the 256-frame capacity. -/
def openWithRoom (st : HubState) (id : Nat) : Bool :=
  match st.store id with
  | none => false
  | some s => !s.queueClosed && decide (s.queue.length < sendQueueCapacity)

theorem openWithRoom_spec {st : HubState} {id : Nat} {s : SessionData}
    (hst : st.store id = some s) (h : openWithRoom st id = true) :
    s.queueClosed = false ∧ s.queue.length < sendQueueCapacity := by
  simpa [openWithRoom, hst, Bool.and_eq_true, Bool.not_eq_true'] using h

theorem openWithRoom_some {st : HubState} {id : Nat}
    (h : openWithRoom st id = true) : ∃ s, st.store id = some s := by
  cases hst : st.store id with
  | none => simp [openWithRoom, hst] at h
  | some s => exact ⟨s, rfl⟩

theorem trySend_open {st : HubState} {id : Nat} {s : SessionData}
    (msg : WebSocketMessage) (hs : st.store id = some s)
    (hc : s.queueClosed = false) (hl : s.queue.length < sendQueueCapacity) :
    trySend st id msg = setSession st id { s with queue := s.queue ++ [msg] } := by
  simp [trySend, hs, hc, hl]

/-- Effect of the `sendToUser` fan-out loop over a duplicate-free list of
target sessions that all have room: each target gets exactly the one frame
appended at the tail of its queue, every other session is untouched, the
registry is untouched, and nothing panics. -/
theorem sendFold_spec (msg : WebSocketMessage) (l : List Nat) :
    ∀ st : HubState, st.panicked = false → l.Nodup →
      (∀ id ∈ l, openWithRoom st id = true) →
      (l.foldl (fun acc id => if acc.panicked then acc else trySend acc id msg)
          st).registry = st.registry
      ∧ (l.foldl (fun acc id => if acc.panicked then acc else trySend acc id msg)
          st).panicked = false
      ∧ (∀ id, id ∉ l →
          (l.foldl (fun acc id => if acc.panicked then acc else trySend acc id msg)
            st).store id = st.store id)
      ∧ (∀ id ∈ l, ∀ s, st.store id = some s →
          (l.foldl (fun acc id => if acc.panicked then acc else trySend acc id msg)
            st).store id = some { s with queue := s.queue ++ [msg] }) := by
  induction l with
  | nil =>
      intro st hp _ _
      exact ⟨rfl, hp, fun _ _ => rfl, fun id hid => absurd hid (List.not_mem_nil id)⟩
  | cons x xs ih =>
      intro st hp hnd hall
      obtain ⟨s, hs⟩ := openWithRoom_some (hall x (List.mem_cons_self x xs))
      obtain ⟨hc, hl⟩ := openWithRoom_spec hs (hall x (List.mem_cons_self x xs))
      have hxnotin : x ∉ xs := (List.nodup_cons.mp hnd).1
      have hstep : (if st.panicked then st else trySend st x msg)
          = setSession st x { s with queue := s.queue ++ [msg] } := by
        rw [if_neg (by simp [hp]), trySend_open msg hs hc hl]
      have hall2 : ∀ id ∈ xs,
          openWithRoom (setSession st x { s with queue := s.queue ++ [msg] }) id
            = true := by
        intro id hid
        have hne : id ≠ x := fun he => hxnotin (he ▸ hid)
        have : (setSession st x { s with queue := s.queue ++ [msg] }).store id
            = st.store id := setSession_store_other st _ hne
        simpa [openWithRoom, this] using hall id (List.mem_cons_of_mem x hid)
      obtain ⟨hreg, hpan, hother, htgt⟩ :=
        ih (setSession st x { s with queue := s.queue ++ [msg] })
          hp (List.nodup_cons.mp hnd).2 hall2
      refine ⟨?_, ?_, ?_, ?_⟩
      · simpa [List.foldl, hstep] using hreg
      · simpa [List.foldl, hstep] using hpan
      · intro id hid
        have hid1 : id ∉ xs := fun hin => hid (List.mem_cons_of_mem x hin)
        have hne : id ≠ x := fun he => hid (he ▸ List.mem_cons_self x xs)
        have := hother id hid1
        simp only [List.foldl, hstep]
        rw [this, setSession_store_other st _ hne]
      · intro id hid t ht
        rcases List.mem_cons.mp hid with he | hin
        · rw [he] at ht
          rw [ht] at hs
          have hts : t = s := Option.some_inj.mp hs
          rw [he, hts]
          simp only [List.foldl, hstep]
          rw [hother x hxnotin, setSession_store_self]
        · have hne : id ≠ x := fun he => hxnotin (he ▸ hin)
          have ht1 : (setSession st x { s with queue := s.queue ++ [msg] }).store id
              = some t := by rw [setSession_store_other st _ hne]; exact ht
          have := htgt id hin t ht1
          simpa [List.foldl, hstep] using this

/-- `sendToUser` under the same conditions, phrased on the user's registry
entry. -/
theorem sendToUser_spec (st : HubState) (uid : String) (msg : WebSocketMessage)
    (hp : st.panicked = false) (hnd : (st.registry uid).Nodup)
    (hall : ∀ id ∈ st.registry uid, openWithRoom st id = true) :
    (sendToUser st uid msg).registry = st.registry
    ∧ (sendToUser st uid msg).panicked = false
    ∧ (∀ id, id ∉ st.registry uid → (sendToUser st uid msg).store id = st.store id)
    ∧ (∀ id ∈ st.registry uid, ∀ s, st.store id = some s →
        (sendToUser st uid msg).store id = some { s with queue := s.queue ++ [msg] }) :=
  sendFold_spec msg (st.registry uid) st hp hnd hall

/-! ## C5 -/

/-- C5: for a chat resolving to participants `{a, b}`, `broadcastToChat`
appends the frame exactly once to the outbound queue of every live Session
registered under `a` and under `b` (live: open queue with room — a full or
closed queue falls under the slow-consumer policy of C1 instead), and
touches no Session of any other user. -/
theorem C5_broadcast_fanout (r : Resolver) (st : HubState) (chat a b : String)
    (msg : WebSocketMessage) (hr : r chat = some (a, b))
    (hp : st.panicked = false)
    (hnd : (st.registry a ++ st.registry b).Nodup)
    (hall : ∀ id ∈ st.registry a ++ st.registry b, openWithRoom st id = true) :
    (∀ id ∈ st.registry a ++ st.registry b, ∀ s, st.store id = some s →
        (broadcastToChat r st chat msg).store id
          = some { s with queue := s.queue ++ [msg] })
    ∧ (∀ id, id ∉ st.registry a ++ st.registry b →
        (broadcastToChat r st chat msg).store id = st.store id) := by
  obtain ⟨hnda, hndb, hdisj⟩ := List.nodup_append.mp hnd
  have halla : ∀ id ∈ st.registry a, openWithRoom st id = true :=
    fun id hid => hall id (List.mem_append_left _ hid)
  have hallb0 : ∀ id ∈ st.registry b, openWithRoom st id = true :=
    fun id hid => hall id (List.mem_append_right _ hid)
  obtain ⟨hreg1, hpan1, hoth1, htgt1⟩ := sendToUser_spec st a msg hp hnda halla
  have hb : broadcastToChat r st chat msg
      = sendToUser (sendToUser st a msg) b msg := by
    simp [broadcastToChat, hr, hpan1]
  have hallb : ∀ id ∈ (sendToUser st a msg).registry b,
      openWithRoom (sendToUser st a msg) id = true := by
    intro id hid
    rw [hreg1] at hid
    have hnotina : id ∉ st.registry a := fun hin => hdisj hin hid
    have hstore : (sendToUser st a msg).store id = st.store id := hoth1 id hnotina
    simpa [openWithRoom, hstore] using hallb0 id hid
  obtain ⟨hreg2, hpan2, hoth2, htgt2⟩ :=
    sendToUser_spec (sendToUser st a msg) b msg hpan1
      (by rw [hreg1]; exact hndb) hallb
  refine ⟨?_, ?_⟩
  · intro id hid s hs
    rw [hb]
    rcases List.mem_append.mp hid with hina | hinb
    · have hnotinb : id ∉ (sendToUser st a msg).registry b := by
        rw [hreg1]
        exact fun hin => hdisj hina hin
      rw [hoth2 id hnotinb]
      exact htgt1 id hina s hs
    · have hnotina : id ∉ st.registry a := fun hin => hdisj hin hinb
      have hinb1 : id ∈ (sendToUser st a msg).registry b := by
        rw [hreg1]
        exact hinb
      have hs1 : (sendToUser st a msg).store id = some s := by
        rw [hoth1 id hnotina]
        exact hs
      exact htgt2 id hinb1 s hs1
  · intro id hid
    have hna : id ∉ st.registry a := fun hin => hid (List.mem_append_left _ hin)
    have hnb : id ∉ (sendToUser st a msg).registry b := by
      rw [hreg1]
      exact fun hin => hid (List.mem_append_right _ hin)
    rw [hb, hoth2 id hnb, hoth1 id hna]

/-- The C5 scenario: user `"A"` with two live Sessions (1 and 2), user `"B"`
with one live Session (3). -/
def scenarioTrace : List Event :=
  [Event.connect 1 "A", Event.connect 2 "A", Event.connect 3 "B"]

/-- C5 witness: the spec's scenario — broadcasting one `new_message` frame
for chat `"C"` enqueues exactly one copy to each of Sessions 1, 2 and 3 and
leaves every other session untouched. -/
theorem C5_broadcast_fanout_witness :
    (∀ id ∈ (run resolverC scenarioTrace).registry "A"
        ++ (run resolverC scenarioTrace).registry "B",
      ∀ s, (run resolverC scenarioTrace).store id = some s →
        (broadcastToChat resolverC (run resolverC scenarioTrace) "C" msgA).store id
          = some { s with queue := s.queue ++ [msgA] })
    ∧ (∀ id, id ∉ (run resolverC scenarioTrace).registry "A"
        ++ (run resolverC scenarioTrace).registry "B" →
        (broadcastToChat resolverC (run resolverC scenarioTrace) "C" msgA).store id
          = (run resolverC scenarioTrace).store id) :=
  C5_broadcast_fanout resolverC (run resolverC scenarioTrace) "C" "A" "B" msgA
    (by decide) (by decide) (by decide) (by decide)

/-! ## C6 -/

/-- C6: identity trust boundary.  For an inbound `typing` frame on a Session
owned by `s.userID`, the hub-visible effect is `handleBroadcast` of the frame
stamped with the Session's own authenticated identity; consequently two
inbound typing frames that differ only in their client-claimed `user_id`
produce the identical result. -/
theorem C6_typing_stamped_with_session_identity (r : Resolver) (st : HubState)
    (id : Nat) (s : SessionData) (m1 m2 : WebSocketMessage)
    (hs : st.store id = some s) (ht : m1.type = "typing")
    (hdiff : m2 = { m1 with userID := m2.userID }) :
    readPumpStep r st id (some m1) = readPumpStep r st id (some m2)
    ∧ readPumpStep r st id (some m1)
        = handleBroadcast r st (stampTyping s.userID m1) := by
  have ht2 : m2.type = "typing" := by rw [hdiff]; exact ht
  have hstamp : stampTyping s.userID m2 = stampTyping s.userID m1 := by
    rw [hdiff]
    rfl
  constructor
  · simp [readPumpStep, hs, ht, ht2, hstamp]
  · simp [readPumpStep, hs, ht]

/-- C6 witness: on Session 1 (owned by `"A"`), a typing frame claiming
`user_id` `"B"` and one claiming `"Z"` are processed identically, and the
rebroadcast is the frame stamped with `"A"`. -/
theorem C6_typing_stamped_witness :
    readPumpStep resolverC (run resolverC scenarioTrace) 1
        (some { type := "typing", chatID := "C", message := "", userID := "B" })
      = readPumpStep resolverC (run resolverC scenarioTrace) 1
        (some { type := "typing", chatID := "C", message := "", userID := "Z" })
    ∧ readPumpStep resolverC (run resolverC scenarioTrace) 1
        (some { type := "typing", chatID := "C", message := "", userID := "B" })
      = handleBroadcast resolverC (run resolverC scenarioTrace)
          (stampTyping "A"
            { type := "typing", chatID := "C", message := "", userID := "B" }) :=
  C6_typing_stamped_with_session_identity resolverC (run resolverC scenarioTrace) 1
    ⟨"A", [], false, false, []⟩ _ _ (by decide) (by decide) (by decide)

/-! ## C7 -/

/-- C7: when the participant resolver fails for a chat, `broadcastToChat`
leaves the whole state untouched (zero deliveries, no retry), and the
persisted-message path of `SendMessage` still answers 201 Created — the
resolution failure is never surfaced to the caller. -/
theorem C7_resolution_failure_is_silent (r : Resolver) (st : HubState)
    (chat payload : String) (msg : WebSocketMessage) (hr : r chat = none) :
    broadcastToChat r st chat msg = st
    ∧ sendMessagePersisted r st chat payload = (st, 201) := by
  have h1 : broadcastToChat r st chat msg = st := by
    simp [broadcastToChat, hr]
  have h2 : BroadcastMessage r st chat payload = st := by
    simp [BroadcastMessage, handleBroadcast, newMessageFrame, broadcastToChat, hr]
  exact ⟨h1, by simp [sendMessagePersisted, h2]⟩

/-- C7 witness: chat `"D"` does not resolve; broadcasting drops silently and
the send-message path still returns 201. -/
theorem C7_resolution_failure_witness :
    broadcastToChat resolverC (run resolverC scenarioTrace) "D" msgA
        = run resolverC scenarioTrace
    ∧ sendMessagePersisted resolverC (run resolverC scenarioTrace) "D" "hi"
        = (run resolverC scenarioTrace, 201) :=
  C7_resolution_failure_is_silent resolverC (run resolverC scenarioTrace) "D" "hi"
    msgA (by decide)

/-! ## C8 -/

/-- The frame types of the wire contract. -/
def knownFrameTypes : List String := ["new_message", "typing", "ping", "pong"]

/-- C8: a malformed inbound frame (decode failure) and an inbound frame with
an unrecognized type are both discarded by the reader loop with no state
change and without terminating the connection; and every outbound frame the
core produces — the pong reply, the `new_message` envelope, and the stamped
typing rebroadcast (stamping preserves the `typing` type) — carries a
recognized type. -/
theorem C8_unrecognized_frames_discarded (r : Resolver) (st : HubState)
    (id : Nat) (m mt : WebSocketMessage) (u chat payload : String)
    (h1 : m.type ≠ "typing") (h2 : m.type ≠ "ping") :
    readPumpStep r st id none = st
    ∧ readPumpStep r st id (some m) = st
    ∧ pongFrame.type ∈ knownFrameTypes
    ∧ (newMessageFrame chat payload).type ∈ knownFrameTypes
    ∧ (mt.type = "typing" → (stampTyping u mt).type ∈ knownFrameTypes) := by
  refine ⟨?_, ?_, ?_, ?_, ?_⟩
  · cases hst : st.store id <;> simp [readPumpStep, hst]
  · cases hst : st.store id <;> simp [readPumpStep, hst, h1, h2]
  · decide
  · simp [newMessageFrame, knownFrameTypes]
  · intro hmt
    have hpres : (stampTyping u mt).type = mt.type := rfl
    rw [hpres, hmt]
    decide

/-- A typing frame claiming to come from user `"B"`. -/
def typingFrameB : WebSocketMessage :=
  { type := "typing", chatID := "C", message := "", userID := "B" }

/-- C8 witness: a frame of unknown type `"garbage"` is discarded with no
state change, as is a malformed frame. -/
theorem C8_unrecognized_frames_witness :
    readPumpStep resolverC (run resolverC scenarioTrace) 1 none
        = run resolverC scenarioTrace
    ∧ readPumpStep resolverC (run resolverC scenarioTrace) 1
        (some { type := "garbage", chatID := "C", message := "", userID := "" })
        = run resolverC scenarioTrace
    ∧ pongFrame.type ∈ knownFrameTypes
    ∧ (newMessageFrame "C" "hi").type ∈ knownFrameTypes
    ∧ (typingFrameB.type = "typing" →
        (stampTyping "A" typingFrameB).type ∈ knownFrameTypes) :=
  C8_unrecognized_frames_discarded resolverC (run resolverC scenarioTrace) 1
    _ typingFrameB "A" "C" "hi" (by decide) (by decide)

/-! ## C9 -/

theorem applyEvents_cons (r : Resolver) (st : HubState) (e : Event)
    (es : List Event) :
    applyEvents r st (e :: es) = applyEvents r (applyEvent r st e) es := rfl

/-- Draining `k` frames through the writer loop writes exactly the first `k`
queued frames to the socket, in queue order. -/
theorem writer_drain (r : Resolver) (k : Nat) :
    ∀ (st : HubState) (id : Nat) (s : SessionData), st.store id = some s →
      st.panicked = false → k ≤ s.queue.length →
      (applyEvents r st (List.replicate k (Event.writerStep id))).store id
        = some { s with queue := s.queue.drop k,
                        written := s.written ++ s.queue.take k } := by
  induction k with
  | zero =>
      intro st id s hs _ _
      simpa using hs
  | succ k ih =>
      intro st id s hs hp hk
      obtain ⟨m, rest, hqe⟩ : ∃ m rest, s.queue = m :: rest := by
        cases hql : s.queue with
        | nil => rw [hql] at hk; simp at hk
        | cons m rest => exact ⟨m, rest, rfl⟩
      have hstep : applyEvent r st (Event.writerStep id)
          = setSession st id { s with queue := rest, written := s.written ++ [m] } := by
        simp [applyEvent, hp, writerStep, hs, hqe]
      have hk2 : k ≤ rest.length := by
        rw [hqe] at hk
        simpa using Nat.le_of_succ_le_succ hk
      have hrec := ih
        (setSession st id { s with queue := rest, written := s.written ++ [m] })
        id { s with queue := rest, written := s.written ++ [m] }
        (setSession_store_self _ _ _) hp hk2
      rw [List.replicate_succ, applyEvents_cons, hstep, hrec]
      rw [hqe]
      simp

/-- C9: FIFO delivery.  A Session with queue contents `q`, receiving `m1`
then `m2` through two `sendToUser` deliveries and then drained by its writer
loop, ends with its socket having received `q`, then `m1`, then `m2`, in
exactly that order. -/
theorem C9_fifo_write_order (r : Resolver) (st : HubState) (uid : String)
    (id : Nat) (s : SessionData) (m1 m2 : WebSocketMessage)
    (hs : st.store id = some s) (hreg : st.registry uid = [id])
    (hp : st.panicked = false) (hc : s.queueClosed = false)
    (hlen : s.queue.length + 2 ≤ sendQueueCapacity) :
    (applyEvents r (sendToUser (sendToUser st uid m1) uid m2)
        (List.replicate (s.queue.length + 2) (Event.writerStep id))).store id
      = some { s with queue := [],
                      written := s.written ++ s.queue ++ [m1, m2] } := by
  have hroom1 : s.queue.length < sendQueueCapacity := by omega
  have h1 : sendToUser st uid m1
      = setSession st id { s with queue := s.queue ++ [m1] } := by
    rw [sendToUser, hreg]
    simp only [List.foldl, hp, Bool.false_eq_true, if_false]
    exact trySend_open m1 hs hc hroom1
  have hs1 : (setSession st id { s with queue := s.queue ++ [m1] }).store id
      = some { s with queue := s.queue ++ [m1] } := setSession_store_self st id _
  have hroom2 : ({ s with queue := s.queue ++ [m1] } : SessionData).queue.length
      < sendQueueCapacity := by
    simp only [List.length_append, List.length_cons, List.length_nil]
    omega
  have h2 : sendToUser (setSession st id { s with queue := s.queue ++ [m1] }) uid m2
      = setSession (setSession st id { s with queue := s.queue ++ [m1] }) id
          { s with queue := (s.queue ++ [m1]) ++ [m2] } := by
    rw [sendToUser]
    have hreg1 : (setSession st id { s with queue := s.queue ++ [m1] }).registry uid
        = [id] := hreg
    rw [hreg1]
    simp only [List.foldl, setSession_panicked, hp, Bool.false_eq_true, if_false]
    exact trySend_open m2 hs1 hc hroom2
  rw [h1, h2]
  have hst2 : (setSession (setSession st id { s with queue := s.queue ++ [m1] }) id
      { s with queue := (s.queue ++ [m1]) ++ [m2] }).store id
      = some { s with queue := (s.queue ++ [m1]) ++ [m2] } :=
    setSession_store_self _ id _
  have hlen2 : s.queue.length + 2
      ≤ ({ s with queue := (s.queue ++ [m1]) ++ [m2] } : SessionData).queue.length := by
    simp
  have hd := writer_drain r (s.queue.length + 2) _ id _ hst2 hp hlen2
  rw [hd]
  have hql : ((s.queue ++ [m1]) ++ [m2]).length = s.queue.length + 2 := by
    simp
  rw [show s.queue.length + 2 = ((s.queue ++ [m1]) ++ [m2]).length from hql.symm]
  rw [List.drop_length, List.take_length]
  simp

/-- C9 witness: Session 1 of user `"A"` with an empty queue receives the
typing rebroadcast frame and then a `new_message` frame; draining two writer
steps writes them to the socket in exactly that order. -/
theorem C9_fifo_write_order_witness :
    (applyEvents resolverC
        (sendToUser (sendToUser (run resolverC [Event.connect 1 "A"]) "A"
          typingFrameB) "A" msgA)
        (List.replicate 2 (Event.writerStep 1))).store 1
      = some { userID := "A", queue := [], queueClosed := false,
               socketClosed := false, written := [typingFrameB, msgA] } := by
  have h := C9_fifo_write_order resolverC (run resolverC [Event.connect 1 "A"]) "A" 1
    ⟨"A", [], false, false, []⟩ typingFrameB msgA (by decide) (by decide)
    (by decide) (by decide) (by decide)
  simpa using h

/-! ## C10 -/

/-- C10: clients cannot inject chat messages through the socket.  An inbound
frame whose type is not `typing` and not `ping` (in particular a client-sent
`new_message`) leaves the whole state unchanged — no broadcast, no enqueue,
no registry change; and the only frames the reader loop can originate are
the stamped typing rebroadcast (whose type stays `typing`) and the pong
reply, never a `new_message` frame. -/
theorem C10_reader_cannot_inject_messages (r : Resolver) (st : HubState)
    (id : Nat) (m mt : WebSocketMessage) (u : String)
    (h1 : m.type ≠ "typing") (h2 : m.type ≠ "ping") :
    readPumpStep r st id (some m) = st
    ∧ (mt.type = "typing" → (stampTyping u mt).type ≠ "new_message")
    ∧ pongFrame.type ≠ "new_message" := by
  refine ⟨?_, ?_, ?_⟩
  · cases hst : st.store id <;> simp [readPumpStep, hst, h1, h2]
  · intro hmt
    have hpres : (stampTyping u mt).type = mt.type := rfl
    rw [hpres, hmt]
    decide
  · decide

/-- C10 witness: an inbound client frame of type `new_message` changes
nothing. -/
theorem C10_reader_cannot_inject_witness :
    readPumpStep resolverC (run resolverC scenarioTrace) 1 (some msgA)
        = run resolverC scenarioTrace
    ∧ (typingFrameB.type = "typing" →
        (stampTyping "A" typingFrameB).type ≠ "new_message")
    ∧ pongFrame.type ≠ "new_message" :=
  C10_reader_cannot_inject_messages resolverC (run resolverC scenarioTrace) 1
    msgA typingFrameB "A" (by decide) (by decide)
